import Mathlib

/-!
# BGXRipper acquisition pipeline — shallow embedding

Shallow embedding of `src/main.py` (`gather_bgx_data`, `animate_progress_bar`)
and of the service filter of `src/mainpretty.py`, together with theorems
settling the specification claims.

Modelling conventions:
* The external BLE host stack (bleak) is modelled by a `World` oracle: the
  result of the i-th scan invocation, the outcome of the connect phase, and
  the result of the k-th characteristic read.
* Python exceptions are an `Outcome`: `normal` return, or `raised e` for an
  exception escaping `gather_bgx_data` unhandled.  `PyExc.nameError` stands
  for the `NameError`/`UnboundLocalError` raised when `progress_task` is
  referenced unbound; `PyExc.timeoutError` for `asyncio.TimeoutError`;
  `PyExc.bleakError` for `bleak.exc.BleakError`.
* Observable behaviour is an event trace: printed lines, scan / connect /
  read invocations, progress-bar start/cancel, and sleeps.  Durations are ℚ.
-/

namespace BGX

/-- A GATT characteristic as exposed by bleak: UUID and the list of declared
property tags (`characteristic.properties : List[str]`). -/
structure Characteristic where
  uuid : String
  properties : List String
  deriving Repr, DecidableEq

/-- A GATT service as exposed by bleak: UUID, human-readable description and
its characteristics. -/
structure Service where
  uuid : String
  description : String
  characteristics : List Characteristic
  deriving Repr, DecidableEq

/-- The seven parameters of `gather_bgx_data` (main.py line 9). -/
structure Config where
  deviceAddress : String
  serviceUuid : String
  characteristicUuid : String
  connectionTimeout : ℚ
  retryDelay : ℚ
  scanTimeout : ℚ
  verbose : Bool
  deriving Repr, DecidableEq

/-- Python exceptions that can escape or be handled in `gather_bgx_data`. -/
inductive PyExc where
  | nameError
  | timeoutError
  | bleakError (msg : String)
  deriving Repr, DecidableEq

/-- Result of one `BleakScanner.find_device_by_address` invocation: a device
handle, `None`, or a raised host-stack fault. -/
inductive ScanOutcome where
  | found (device : String)
  | notFound
  | fault (e : PyExc)
  deriving Repr, DecidableEq

/-- Result of one `client.read_gatt_char` invocation.  A successful value is
abstracted as a string (the printed form of the bytes). -/
inductive ReadResult where
  | ok (value : String)
  | timeout
  | bleakError (msg : String)
  deriving Repr, DecidableEq

/-- Outcome of the `async with BleakClient(...)` block set-up, folding in
`is_connected()` and `get_services()` (all before the harvest loop):
either it yields a connected client with its services, or it raises. -/
inductive ConnectOutcome where
  | ok (isConnected : Bool) (services : List Service)
  | timeout
  | bleakError (msg : String)
  deriving Repr, DecidableEq

/-- Oracle for the external BLE host stack: `scan i` is the result of the
i-th scan invocation of the run, `readAt k` the result of the k-th read
invocation of the run (both 0-based, in invocation order). -/
structure World where
  scan : Nat → ScanOutcome
  connect : ConnectOutcome
  readAt : Nat → ReadResult

/-- Observable events of a run. -/
inductive Event where
  | printLine (s : String)
  | progressStart (budget : ℚ)
  | progressCancel
  | scanInvoke (address : String) (timeout : ℚ)
  | connectInvoke (timeout : ℚ)
  | readInvoke (uuid : String)
  | sleep (duration : ℚ)
  deriving Repr, DecidableEq

/-- Exit status of `gather_bgx_data`: normal return, or an exception
escaping it unhandled. -/
inductive Outcome where
  | normal
  | raised (e : PyExc)
  deriving Repr, DecidableEq

/-- Result of the device-locator loop (main.py lines 22–42). -/
inductive LocResult where
  | found (device : String)
  | notFound
  | raised (e : PyExc)
  deriving Repr, DecidableEq

/-- `needle.isPrefixOf`-based containment over char lists, the semantics of
Python `needle in hay` for strings. -/
def listInfixOf (needle : List Char) : List Char → Bool
  | [] => needle.isEmpty
  | c :: cs => needle.isPrefixOf (c :: cs) || listInfixOf needle cs

/-- Python `needle in hay` (substring containment). -/
def strContains (hay needle : String) : Bool :=
  listInfixOf needle.toList hay.toList

/-- Python `s.lower()` (character-wise lowercasing; the vendor substrings
tested here are plain ASCII). -/
def pyLower (s : String) : String :=
  String.mk (s.toList.map Char.toLower)

/-- main.py line 52: the filter predicate of the `relevant_services` list
comprehension — description-substring test only, the UUID is not consulted. -/
def isRelevantService (s : Service) : Bool :=
  strContains (pyLower s.description) "bgx" ||
    strContains (pyLower s.description) "xpress" ||
    strContains (pyLower s.description) "gechoos"

/-- main.py line 52: `relevant_services`. -/
def relevant_services (services : List Service) : List Service :=
  services.filter isRelevantService

/-- mainpretty.py lines 67–70: the filter predicate there — UUID equality or
description containing "xpress" / "gechoos" (no "bgx" test). -/
def isRelevantServicePretty (serviceUuid : String) (s : Service) : Bool :=
  s.uuid == serviceUuid ||
    strContains (pyLower s.description) "xpress" ||
    strContains (pyLower s.description) "gechoos"

/-- The spec's §4.4 filtering policy, stated from the spec's words for
comparison: UUID equals `targetServiceId` OR the description
(case-insensitive) contains one of "bgx", "xpress", "gechoos". -/
def specRelevantService (targetServiceId : String) (s : Service) : Bool :=
  s.uuid == targetServiceId ||
    strContains (pyLower s.description) "bgx" ||
    strContains (pyLower s.description) "xpress" ||
    strContains (pyLower s.description) "gechoos"

/-- main.py line 56: `"read" in characteristic.properties` — exact,
case-sensitive membership in the property-tag list. -/
def hasReadCapability (c : Characteristic) : Bool :=
  c.properties.contains "read"

/-- The spec's §4.5 capability check, stated from the spec's words for
comparison: case-insensitive substring match of "read" against the declared
property tags. -/
def specHasReadCapability (c : Characteristic) : Bool :=
  c.properties.any (fun p => strContains (pyLower p) "read")

/-- Python `str(bool)`. -/
def pyBool (b : Bool) : String := if b then "True" else "False"

/-- main.py line 26: the verbose attempt announcement (`retries` is 3). -/
def attemptMsg (address : String) (attempt : Nat) : String :=
  let n := attempt + 1
  s!"Attempting to find device: {address}, attempt {n}/3"

/-- main.py line 37: the retry notice printed when an attempt found nothing. -/
def retryMsg (attempt : Nat) : String :=
  let n := attempt + 1
  "\x1b[91m\n" ++ s!"Attempt {n} of 3: Device not found. Retrying..." ++ "\x1b[0m"

/-- main.py line 41: final failure message of the locator. -/
def deviceNotFoundMsg : String :=
  "Device not found after multiple attempts. Please ensure the device is powered on and in range."

/-- main.py line 48: verbose connection report. -/
def connectedMsg (b : Bool) : String :=
  let v := pyBool b
  "\x1b[92m" ++ s!"Connected to device: {v}" ++ "\x1b[0m"

/-- main.py line 54: per-service discovery line. -/
def serviceMsg (uuid description : String) : String :=
  s!"Found Service: {uuid} - {description}"

/-- main.py line 60: successful generic read line. -/
def charValueMsg (uuid value : String) : String :=
  s!"Characteristic {uuid}: {value}"

/-- main.py line 63: onboard-storage line for the target characteristic. -/
def onboardMsg (value : String) : String :=
  s!"Onboard Storage Data: {value}"

/-- main.py line 65: per-characteristic read-timeout notice. -/
def readTimeoutMsg (uuid : String) : String :=
  s!"Read operation timed out for characteristic {uuid}"

/-- main.py line 67: per-characteristic BleakError notice. -/
def readFailMsg (uuid msg : String) : String :=
  s!"Failed to read characteristic {uuid}: {msg}"

/-- main.py line 69: outer `except BleakError` report. -/
def connectErrMsg (msg : String) : String :=
  s!"An error occurred during connection or data gathering: {msg}"

/-- main.py lines 24–38, the body of `for attempt in range(retries)` with
`retries = 3`.  `fuel` is the number of remaining iterations, `attempt` the
0-based loop index, `scanIdx` the number of scan invocations issued so far.

Faithful control flow of one iteration:
* line 26–27 run only under `verbose` (announcement + progress task start);
* line 28 issues the first scan; a raised host-stack fault there propagates
  (no handler encloses the loop);
* line 29 `progress_task.cancel()` — when `verbose` is false,
  `progress_task` was never assigned, so this raises `NameError`
  (`UnboundLocalError`) after the first scan of the very first attempt;
* line 34 issues a second scan, overwriting `device`: only the second
  scan's result is consulted by line 35's `if device: break`;
* lines 37–38 print the retry notice and sleep `retry_delay` whenever the
  second scan found nothing — including on the final iteration. -/
def locateGo (w : World) (cfg : Config) : Nat → Nat → Nat → List Event × LocResult
  | 0, _, _ => ([], .notFound)
  | fuel + 1, attempt, scanIdx =>
    let pre : List Event :=
      if cfg.verbose then
        [.printLine (attemptMsg cfg.deviceAddress attempt), .progressStart cfg.scanTimeout]
      else []
    let tr1 := pre ++ [.scanInvoke cfg.deviceAddress cfg.scanTimeout]
    match w.scan scanIdx with
    | .fault e => (tr1, .raised e)
    | _ =>
      if cfg.verbose then
        let tr2 := tr1 ++ [.progressCancel, .scanInvoke cfg.deviceAddress cfg.scanTimeout]
        match w.scan (scanIdx + 1) with
        | .fault e => (tr2, .raised e)
        | .found d => (tr2, .found d)
        | .notFound =>
          let tr3 := tr2 ++ [.printLine (retryMsg attempt), .sleep cfg.retryDelay]
          let (tr4, res) := locateGo w cfg fuel (attempt + 1) (scanIdx + 2)
          (tr3 ++ tr4, res)
      else (tr1, .raised .nameError)

/-- main.py lines 57–67: the guarded read body for one characteristic that
passed the capability check.  `k` is the number of read invocations issued so
far; returns the events of this iteration and the updated count.  The inner
`try` catches `asyncio.TimeoutError` and `BleakError` from either read. -/
def harvestChar (w : World) (cfg : Config) (k : Nat) (c : Characteristic) :
    List Event × Nat :=
  let tr0 : List Event := [.sleep 1, .readInvoke c.uuid]
  match w.readAt k with
  | .ok v =>
    let tr1 := tr0 ++ [.printLine (charValueMsg c.uuid v)]
    if c.uuid == cfg.characteristicUuid then
      let tr2 := tr1 ++ [.readInvoke c.uuid]
      match w.readAt (k + 1) with
      | .ok v2 => (tr2 ++ [.printLine (onboardMsg v2)], k + 2)
      | .timeout => (tr2 ++ [.printLine (readTimeoutMsg c.uuid)], k + 2)
      | .bleakError m => (tr2 ++ [.printLine (readFailMsg c.uuid m)], k + 2)
    else (tr1, k + 1)
  | .timeout => (tr0 ++ [.printLine (readTimeoutMsg c.uuid)], k + 1)
  | .bleakError m => (tr0 ++ [.printLine (readFailMsg c.uuid m)], k + 1)

/-- main.py line 56: one loop iteration over a characteristic — the body runs
only when `"read" in characteristic.properties`. -/
def harvestStep (w : World) (cfg : Config) (k : Nat) (c : Characteristic) :
    List Event × Nat :=
  if hasReadCapability c then harvestChar w cfg k c else ([], k)

/-- main.py lines 55–67: the inner characteristic loop of one service. -/
def harvestChars (w : World) (cfg : Config) : List Characteristic → Nat → List Event × Nat
  | [], k => ([], k)
  | c :: cs, k =>
    let p1 := harvestStep w cfg k c
    let p2 := harvestChars w cfg cs p1.2
    (p1.1 ++ p2.1, p2.2)

/-- main.py lines 53–67: the outer loop over `relevant_services`, printing
the service line then harvesting its characteristics. -/
def harvestServices (w : World) (cfg : Config) : List Service → Nat → List Event × Nat
  | [], k => ([], k)
  | s :: ss, k =>
    let p1 := harvestChars w cfg s.characteristics k
    let p2 := harvestServices w cfg ss p1.2
    (.printLine (serviceMsg s.uuid s.description) :: (p1.1 ++ p2.1), p2.2)

/-- main.py lines 44–69: the connected phase.  The `async with
BleakClient(...)` set-up (together with `is_connected()` and
`get_services()`) is the `World.connect` oracle:
* a timeout fault during connect is `asyncio.TimeoutError`, which the sole
  handler `except BleakError` (line 68) does not catch — it propagates;
* a `BleakError` is caught by line 68 and reported as one line;
* on success the harvest loop runs over `relevant_services`; all
  per-characteristic faults are handled inside `harvestChar`. -/
def connectedPhase (w : World) (cfg : Config) : List Event × Outcome :=
  match w.connect with
  | .timeout => ([.connectInvoke cfg.connectionTimeout], .raised .timeoutError)
  | .bleakError m =>
    ([.connectInvoke cfg.connectionTimeout, .printLine (connectErrMsg m)], .normal)
  | .ok isConn services =>
    let pre : List Event :=
      .connectInvoke cfg.connectionTimeout ::
        (if cfg.verbose then [.printLine (connectedMsg isConn)] else [])
    let p := harvestServices w cfg (relevant_services services) 0
    (pre ++ p.1, .normal)

/-- main.py lines 9–69: `gather_bgx_data`.  Locator loop first; if it
raised, the exception escapes (outcome `raised`); if no device was found the
final message prints and the function returns; otherwise the connected
phase runs. -/
def gather_bgx_data (w : World) (cfg : Config) : List Event × Outcome :=
  match locateGo w cfg 3 0 0 with
  | (tr, .raised e) => (tr, .raised e)
  | (tr, .notFound) => (tr ++ [.printLine deviceNotFoundMsg], .normal)
  | (tr, .found _) =>
    let p := connectedPhase w cfg
    (tr ++ p.1, p.2)

/-! ## Progress Reporter (main.py lines 73–102, `animate_progress_bar`) -/

/-- main.py line 86: `bar_length = 40`. -/
def bar_length : Nat := 40

/-- Python `int()` on a rational: truncation toward zero. -/
def pyInt (q : ℚ) : ℤ := q.num.tdiv q.den

/-- main.py line 91: `progress = min(elapsed_time / duration, 1.0)`. -/
def progressOf (elapsed duration : ℚ) : ℚ := min (elapsed / duration) 1

/-- main.py line 92: `filled_length = int(bar_length * progress)` (as the
repetition count actually used by the string repeats: negative counts
repeat zero times). -/
def filled_length (elapsed duration : ℚ) : ℕ :=
  (pyInt (bar_length * progressOf elapsed duration)).toNat

/-- One segment of the rendered bar. -/
inductive Segment where
  | fill
  | dash
  deriving Repr, DecidableEq

/-- main.py line 93: the bar as a list of segments —
`filled_length` filled segments then `bar_length - filled_length` dashes. -/
def renderBar (elapsed duration : ℚ) : List Segment :=
  List.replicate (filled_length elapsed duration) .fill ++
    List.replicate (bar_length - filled_length elapsed duration) .dash

/-- main.py line 93: concrete text of one segment (the fill segment carries
its ANSI colour codes). -/
def segString : Segment → String
  | .fill => "\x1b[92m#\x1b[0m"
  | .dash => "-"

/-- main.py line 94: the full line written to stdout at one refresh tick. -/
def progressLine (elapsed duration : ℚ) : String :=
  let bar := String.join ((renderBar elapsed duration).map segString)
  let pct := toString (pyInt (progressOf elapsed duration * 100))
  "\rScanning: [" ++ bar ++ "] " ++ pct ++ "%"

/-- One refresh tick of the loop at main.py lines 89–98: the line written,
and whether the loop continues past this tick (line 96 breaks once
`progress >= 1.0`). -/
def animate_tick (elapsed duration : ℚ) : String × Bool :=
  (progressLine elapsed duration,
    if 1 ≤ progressOf elapsed duration then false else true)

/-! ## Trace observers -/

/-- Is this event a scan invocation? -/
def isScanEvent : Event → Bool
  | .scanInvoke _ _ => true
  | _ => false

/-- Is this event a characteristic-read invocation? -/
def isReadEvent : Event → Bool
  | .readInvoke _ => true
  | _ => false

/-- Is this event a printed line? -/
def isPrintEvent : Event → Bool
  | .printLine _ => true
  | _ => false

/-- Is this event a suspension (`asyncio.sleep`)? -/
def isSleepEvent : Event → Bool
  | .sleep _ => true
  | _ => false

/-- Is this event a connection attempt? -/
def isConnectEvent : Event → Bool
  | .connectInvoke _ => true
  | _ => false

/-- UUIDs of the read invocations of a trace, in order. -/
def readInvokedUuids (tr : List Event) : List String :=
  tr.filterMap fun e =>
    match e with
    | .readInvoke u => some u
    | _ => none

/-! ## Concrete fixtures used by counterexamples and witnesses -/

/-- A verbose configuration with the CLI default timings. -/
def cfgV : Config :=
  ⟨"AA:BB:CC:DD:EE:FF", "svc-target", "char-target", 10, 2, 20, true⟩

/-- The same configuration with `verbose = False`. -/
def cfgNV : Config :=
  ⟨"AA:BB:CC:DD:EE:FF", "svc-target", "char-target", 10, 2, 20, false⟩

/-- A world in which no scan ever finds the device; connect would succeed. -/
def wScanNone : World where
  scan := fun _ => ScanOutcome.notFound
  connect := ConnectOutcome.ok true []
  readAt := fun _ => ReadResult.ok "v"

/-- A world in which only the very first scan invocation finds the device. -/
def wFirstScanFinds : World where
  scan := fun i => if i = 0 then ScanOutcome.found "dev" else ScanOutcome.notFound
  connect := ConnectOutcome.ok true []
  readAt := fun _ => ReadResult.ok "v"

/-- A world in which the second scan invocation finds the device and every
read succeeds. -/
def wSecondScanFinds : World where
  scan := fun i => if i = 1 then ScanOutcome.found "dev" else ScanOutcome.notFound
  connect := ConnectOutcome.ok true []
  readAt := fun _ => ReadResult.ok "v"

/-- Like `wSecondScanFinds` but the connect phase raises a timeout fault. -/
def wConnectTimeout : World where
  scan := fun i => if i = 1 then ScanOutcome.found "dev" else ScanOutcome.notFound
  connect := ConnectOutcome.timeout
  readAt := fun _ => ReadResult.ok "v"

/-- Like `wSecondScanFinds` but the first read invocation times out. -/
def wFirstReadTimesOut : World where
  scan := fun i => if i = 1 then ScanOutcome.found "dev" else ScanOutcome.notFound
  connect := ConnectOutcome.ok true []
  readAt := fun k => if k = 0 then ReadResult.timeout else ReadResult.ok "v"

/-- A characteristic without the "read" tag. -/
def charNoRead : Characteristic := ⟨"char-w", ["write"]⟩

/-- A characteristic with the "read" tag. -/
def charRead : Characteristic := ⟨"char-r", ["read"]⟩

/-- A characteristic whose only tag is upper-case "READ". -/
def charUpperRead : Characteristic := ⟨"char-u", ["READ"]⟩

/-- A service whose UUID is the target's but whose description contains no
vendor substring. -/
def svcPlainTarget : Service := ⟨"svc-target", "Plain Service", []⟩

/-- A service whose description contains "bgx" but not "xpress"/"gechoos",
with a non-target UUID. -/
def svcBgxOnly : Service := ⟨"svc-2", "BGX Control", []⟩

/-- A readable characteristic "char-a". -/
def charA : Characteristic := ⟨"char-a", ["read"]⟩

/-- A readable characteristic "char-b". -/
def charB : Characteristic := ⟨"char-b", ["read"]⟩

/-- A readable characteristic whose UUID is `cfgV`'s target. -/
def charTarget : Characteristic := ⟨"char-target", ["read"]⟩

/-- Like `wSecondScanFinds` but the connect phase raises a `BleakError`. -/
def wConnectBleakFails : World where
  scan := fun i => if i = 1 then ScanOutcome.found "dev" else ScanOutcome.notFound
  connect := ConnectOutcome.bleakError "boom"
  readAt := fun _ => ReadResult.ok "v"

/-! ## Helper lemmas -/

/-- Each executed read body emits exactly one throttle suspension. -/
theorem harvestChar_sleep_count (w : World) (cfg : Config) (k : Nat) (c : Characteristic) :
    (harvestChar w cfg k c).1.countP isSleepEvent = 1 := by
  unfold harvestChar
  cases w.readAt k with
  | ok v =>
    by_cases h : (c.uuid == cfg.characteristicUuid) = true
    · cases w.readAt (k+1) <;> simp [h, isSleepEvent, List.countP_cons, List.countP_append]
    · simp [h, isSleepEvent, List.countP_cons, List.countP_append]
  | timeout => simp [isSleepEvent, List.countP_cons, List.countP_append]
  | bleakError m => simp [isSleepEvent, List.countP_cons, List.countP_append]

/-- Each executed read body issues a read invocation for its characteristic. -/
theorem harvestChar_read_mem (w : World) (cfg : Config) (k : Nat) (c : Characteristic) :
    Event.readInvoke c.uuid ∈ (harvestChar w cfg k c).1 := by
  unfold harvestChar
  cases w.readAt k with
  | ok v =>
    by_cases h : (c.uuid == cfg.characteristicUuid) = true
    · cases w.readAt (k+1) <;> simp [h]
    · simp [h]
  | timeout => simp
  | bleakError m => simp

/-- An executed read body always leaves a non-empty trace. -/
theorem harvestChar_trace_ne_nil (w : World) (cfg : Config) (k : Nat) (c : Characteristic) :
    (harvestChar w cfg k c).1 ≠ [] := by
  unfold harvestChar
  cases w.readAt k with
  | ok v =>
    by_cases h : (c.uuid == cfg.characteristicUuid) = true
    · cases w.readAt (k+1) <;> simp [h]
    · simp [h]
  | timeout => simp
  | bleakError m => simp

/-- The inner characteristic loop attempts every readable characteristic
exactly once (one throttle suspension per readable characteristic) and
issues a read invocation for each of them, whatever each read returns. -/
theorem harvest_reads_all_readable (w : World) (cfg : Config)
    (cs : List Characteristic) (k : Nat) :
    (harvestChars w cfg cs k).1.countP isSleepEvent =
      (cs.filter (fun c => hasReadCapability c)).length ∧
    ∀ c ∈ cs, hasReadCapability c = true →
      Event.readInvoke c.uuid ∈ (harvestChars w cfg cs k).1 := by
  induction cs generalizing k with
  | nil => simp [harvestChars]
  | cons c cs ih =>
    refine ⟨?_, ?_⟩
    · by_cases h : hasReadCapability c = true
      · simp [harvestChars, harvestStep, h, List.countP_append,
          harvestChar_sleep_count, (ih _).1, Nat.add_comm]
      · simp [harvestChars, harvestStep, h, (ih _).1]
    · intro c' hc' hr
      rcases List.mem_cons.mp hc' with rfl | hc'
      · by_cases h : hasReadCapability c' = true
        · simp [harvestChars, harvestStep, h, harvestChar_read_mem]
        · exact absurd hr h
      · by_cases h : hasReadCapability c = true
        · simp [harvestChars, harvestStep, h]
          exact Or.inr ((ih _).2 c' hc' hr)
        · simp [harvestChars, harvestStep, h]
          exact (ih _).2 c' hc' hr

/-- Python `int()` agrees with the floor on non-negative rationals. -/
theorem pyInt_eq_floor (q : ℚ) (h : 0 ≤ q) : pyInt q = ⌊q⌋ := by
  rw [Rat.floor_def]
  exact Int.tdiv_eq_ediv (Rat.num_nonneg.mpr h) (Int.natCast_nonneg _)

/-- The locator loop never reads `serviceUuid`. -/
theorem locateGo_ignores_serviceUuid (w : World) (cfg : Config) (s : String) :
    ∀ fuel attempt scanIdx,
      locateGo w { cfg with serviceUuid := s } fuel attempt scanIdx =
        locateGo w cfg fuel attempt scanIdx := by
  intro fuel
  induction fuel with
  | zero => intro a k; rfl
  | succ n ih =>
    intro a k
    simp only [locateGo]
    cases hsc : w.scan k <;> cases hsc2 : w.scan (k + 1) <;> simp [ih]

/-- The read body never reads `serviceUuid`. -/
theorem harvestChar_ignores_serviceUuid (w : World) (cfg : Config) (s : String)
    (k : Nat) (c : Characteristic) :
    harvestChar w { cfg with serviceUuid := s } k c = harvestChar w cfg k c := rfl

/-- The guarded read step never reads `serviceUuid`. -/
theorem harvestStep_ignores_serviceUuid (w : World) (cfg : Config) (s : String)
    (k : Nat) (c : Characteristic) :
    harvestStep w { cfg with serviceUuid := s } k c = harvestStep w cfg k c := by
  simp [harvestStep, harvestChar_ignores_serviceUuid]

/-- The characteristic loop never reads `serviceUuid`. -/
theorem harvestChars_ignores_serviceUuid (w : World) (cfg : Config) (s : String) :
    ∀ (cs : List Characteristic) (k : Nat),
      harvestChars w { cfg with serviceUuid := s } cs k = harvestChars w cfg cs k := by
  intro cs
  induction cs with
  | nil => intro k; rfl
  | cons c cs ih =>
    intro k
    simp only [harvestChars, harvestStep_ignores_serviceUuid, ih]

/-- The service loop never reads `serviceUuid`. -/
theorem harvestServices_ignores_serviceUuid (w : World) (cfg : Config) (s : String) :
    ∀ (ss : List Service) (k : Nat),
      harvestServices w { cfg with serviceUuid := s } ss k = harvestServices w cfg ss k := by
  intro ss
  induction ss with
  | nil => intro k; rfl
  | cons sv ss ih =>
    intro k
    simp only [harvestServices, harvestChars_ignores_serviceUuid, ih]

/-- The connected phase never reads `serviceUuid`. -/
theorem connectedPhase_ignores_serviceUuid (w : World) (cfg : Config) (s : String) :
    connectedPhase w { cfg with serviceUuid := s } = connectedPhase w cfg := by
  unfold connectedPhase
  cases w.connect with
  | ok b svcs => simp [harvestServices_ignores_serviceUuid]
  | timeout => rfl
  | bleakError m => rfl

/-! ## Claim theorems -/

/-- C1 counterexample: in a verbose run where the very first scan-by-address
invocation returns the device, the locator does not return it: each attempt
issues a second scan whose result overwrites the first (main.py lines 28 and
34), so the run performs six scan invocations and ends with no device found
— refuting "each attempt issues exactly one scan-by-address invocation, and
if that scan returns a device the Locator returns it immediately". -/
theorem first_scan_result_discarded :
    (locateGo wFirstScanFinds cfgV 3 0 0).1.countP isScanEvent = 6 ∧
    (locateGo wFirstScanFinds cfgV 3 0 0).2 = LocResult.notFound := by decide

/-- C1 (amended): each verbose attempt issues exactly two scan invocations
with `scanTimeout`; only the second scan's result is consulted.  When the
second scan of the first attempt returns a device the locator returns it
immediately — two scan invocations total, no retry suspension, no further
attempts. -/
theorem locate_two_scans_then_return (w : World) (cfg : Config) (d : String)
    (hv : cfg.verbose = true)
    (h0 : ∀ e, w.scan 0 ≠ ScanOutcome.fault e)
    (h1 : w.scan 1 = ScanOutcome.found d) :
    locateGo w cfg 3 0 0 =
      ([.printLine (attemptMsg cfg.deviceAddress 0), .progressStart cfg.scanTimeout,
        .scanInvoke cfg.deviceAddress cfg.scanTimeout, .progressCancel,
        .scanInvoke cfg.deviceAddress cfg.scanTimeout], LocResult.found d) ∧
    (locateGo w cfg 3 0 0).1.countP isScanEvent = 2 ∧
    (locateGo w cfg 3 0 0).1.countP isSleepEvent = 0 := by
  have hloc : locateGo w cfg 3 0 0 =
      ([.printLine (attemptMsg cfg.deviceAddress 0), .progressStart cfg.scanTimeout,
        .scanInvoke cfg.deviceAddress cfg.scanTimeout, .progressCancel,
        .scanInvoke cfg.deviceAddress cfg.scanTimeout], LocResult.found d) := by
    cases hc : w.scan 0 with
    | fault e => exact absurd hc (h0 e)
    | found d' => simp [locateGo, hv, hc, h1]
    | notFound => simp [locateGo, hv, hc, h1]
  refine ⟨hloc, ?_, ?_⟩ <;>
    simp [hloc, isScanEvent, isSleepEvent, List.countP_cons]

/-- C1 witness: `locate_two_scans_then_return` at the concrete world whose
second scan finds the device. -/
theorem locate_two_scans_then_return_witness :
    locateGo wSecondScanFinds cfgV 3 0 0 =
      ([.printLine (attemptMsg cfgV.deviceAddress 0), .progressStart cfgV.scanTimeout,
        .scanInvoke cfgV.deviceAddress cfgV.scanTimeout, .progressCancel,
        .scanInvoke cfgV.deviceAddress cfgV.scanTimeout], LocResult.found "dev") ∧
    (locateGo wSecondScanFinds cfgV 3 0 0).1.countP isScanEvent = 2 ∧
    (locateGo wSecondScanFinds cfgV 3 0 0).1.countP isSleepEvent = 0 :=
  locate_two_scans_then_return wSecondScanFinds cfgV "dev" rfl
    (fun e h => by simp [wSecondScanFinds] at h) rfl

/-- C2 counterexample: in a verbose run where every scan yields no device,
the run suspends for `retryDelay` three times, and the event immediately
before the final `DeviceNotFound` message is such a suspension — refuting
"the retryDelay suspension occurs only between attempts 1 and 2 and between
attempts 2 and 3, never after the 3rd attempt" (main.py line 38 runs on
every failed iteration, the last included). -/
theorem retry_sleep_after_third_attempt :
    (gather_bgx_data wScanNone cfgV).1.countP isSleepEvent = 3 ∧
    (gather_bgx_data wScanNone cfgV).1.getLast? =
      some (Event.printLine deviceNotFoundMsg) ∧
    (gather_bgx_data wScanNone cfgV).1.dropLast.getLast? = some (Event.sleep 2) := by
  decide

/-- C2 (amended): for every verbose run in which all scan invocations yield
no device, the locator performs exactly three attempts (six scan
invocations) and then fails with the `DeviceNotFound` message, and the
`retryDelay` suspension occurs after every failed attempt — including after
the 3rd, right before the failure message; the run then returns normally. -/
theorem locate_exhausts_with_sleep_each_attempt (w : World) (cfg : Config)
    (hv : cfg.verbose = true)
    (hs : ∀ i, w.scan i = ScanOutcome.notFound) :
    gather_bgx_data w cfg =
      ([.printLine (attemptMsg cfg.deviceAddress 0), .progressStart cfg.scanTimeout,
        .scanInvoke cfg.deviceAddress cfg.scanTimeout, .progressCancel,
        .scanInvoke cfg.deviceAddress cfg.scanTimeout,
        .printLine (retryMsg 0), .sleep cfg.retryDelay,
        .printLine (attemptMsg cfg.deviceAddress 1), .progressStart cfg.scanTimeout,
        .scanInvoke cfg.deviceAddress cfg.scanTimeout, .progressCancel,
        .scanInvoke cfg.deviceAddress cfg.scanTimeout,
        .printLine (retryMsg 1), .sleep cfg.retryDelay,
        .printLine (attemptMsg cfg.deviceAddress 2), .progressStart cfg.scanTimeout,
        .scanInvoke cfg.deviceAddress cfg.scanTimeout, .progressCancel,
        .scanInvoke cfg.deviceAddress cfg.scanTimeout,
        .printLine (retryMsg 2), .sleep cfg.retryDelay,
        .printLine deviceNotFoundMsg], Outcome.normal) := by
  simp [gather_bgx_data, locateGo, hv, hs]

/-- C2 witness: `locate_exhausts_with_sleep_each_attempt` at the concrete
world whose scans never find the device. -/
theorem locate_exhausts_with_sleep_each_attempt_witness :
    gather_bgx_data wScanNone cfgV =
      ([.printLine (attemptMsg cfgV.deviceAddress 0), .progressStart cfgV.scanTimeout,
        .scanInvoke cfgV.deviceAddress cfgV.scanTimeout, .progressCancel,
        .scanInvoke cfgV.deviceAddress cfgV.scanTimeout,
        .printLine (retryMsg 0), .sleep cfgV.retryDelay,
        .printLine (attemptMsg cfgV.deviceAddress 1), .progressStart cfgV.scanTimeout,
        .scanInvoke cfgV.deviceAddress cfgV.scanTimeout, .progressCancel,
        .scanInvoke cfgV.deviceAddress cfgV.scanTimeout,
        .printLine (retryMsg 1), .sleep cfgV.retryDelay,
        .printLine (attemptMsg cfgV.deviceAddress 2), .progressStart cfgV.scanTimeout,
        .scanInvoke cfgV.deviceAddress cfgV.scanTimeout, .progressCancel,
        .scanInvoke cfgV.deviceAddress cfgV.scanTimeout,
        .printLine (retryMsg 2), .sleep cfgV.retryDelay,
        .printLine deviceNotFoundMsg], Outcome.normal) :=
  locate_exhausts_with_sleep_each_attempt wScanNone cfgV rfl (fun _ => rfl)

/-- C9: for every run with the verbose flag false whose first scan does not
itself raise, the pipeline raises `NameError` right after the first scan
invocation (`progress_task` is cancelled unconditionally at main.py line 29
but assigned only under `verbose` at line 27): the observable trace is the
single scan invocation, and no connect invocation ever occurs — the
connection phase is reachable only when verbose is true. -/
theorem nonverbose_raises_name_error (w : World) (cfg : Config)
    (hv : cfg.verbose = false)
    (h0 : ∀ e, w.scan 0 ≠ ScanOutcome.fault e) :
    gather_bgx_data w cfg =
      ([Event.scanInvoke cfg.deviceAddress cfg.scanTimeout],
        Outcome.raised PyExc.nameError) ∧
    (gather_bgx_data w cfg).1.countP isConnectEvent = 0 := by
  cases hc : w.scan 0 with
  | fault e => exact absurd hc (h0 e)
  | found d =>
    constructor <;>
      simp [gather_bgx_data, locateGo, hv, hc, isConnectEvent, List.countP_cons]
  | notFound =>
    constructor <;>
      simp [gather_bgx_data, locateGo, hv, hc, isConnectEvent, List.countP_cons]

/-- C9 witness: `nonverbose_raises_name_error` at the concrete non-verbose
configuration. -/
theorem nonverbose_raises_name_error_witness :
    gather_bgx_data wScanNone cfgNV =
      ([Event.scanInvoke cfgNV.deviceAddress cfgNV.scanTimeout],
        Outcome.raised PyExc.nameError) ∧
    (gather_bgx_data wScanNone cfgNV).1.countP isConnectEvent = 0 :=
  nonverbose_raises_name_error wScanNone cfgNV rfl
    (fun e h => by simp [wScanNone] at h)

/-- C3 counterexample: the spec's filtering policy accepts a service whose
UUID equals the target but whose description has no vendor substring, yet
main.py's enumerator discards it (line 52 never consults the UUID); and
mainpretty.py's filter rejects a service described "BGX Control" that the
spec's policy accepts (its filter has no "bgx" test) — refuting the claimed
"yields if and only if UUID equals targetServiceId OR description contains
bgx/xpress/gechoos" for both files. -/
theorem filter_ignores_target_uuid :
    specRelevantService "svc-target" svcPlainTarget = true ∧
    relevant_services [svcPlainTarget] = [] ∧
    specRelevantService "other" svcBgxOnly = true ∧
    isRelevantServicePretty "other" svcBgxOnly = false := by decide

/-- C3 (amended): main.py's Topology Enumerator yields a service iff its
lowercased description contains "bgx", "xpress" or "gechoos"; the UUID is
never consulted (the predicate is invariant under changing the UUID); a
service described "GECHOOS Xpress Service" is yielded and one described
"Battery Service" is not; mainpretty.py's variant additionally yields on
UUID equality (while omitting the "bgx" test). -/
theorem enumerator_filters_by_description_only (targetServiceId : String)
    (services : List Service) (s : Service) :
    (s ∈ relevant_services services ↔
      s ∈ services ∧ (strContains (pyLower s.description) "bgx" = true ∨
        strContains (pyLower s.description) "xpress" = true ∨
        strContains (pyLower s.description) "gechoos" = true)) ∧
    (∀ u₁ u₂ d cs, isRelevantService ⟨u₁, d, cs⟩ = isRelevantService ⟨u₂, d, cs⟩) ∧
    isRelevantService ⟨"svc-x", "GECHOOS Xpress Service", []⟩ = true ∧
    isRelevantService ⟨"svc-x", "Battery Service", []⟩ = false ∧
    isRelevantServicePretty targetServiceId ⟨targetServiceId, "Plain Service", []⟩ = true := by
  refine ⟨?_, fun u₁ u₂ d cs => rfl, by decide, by decide, ?_⟩
  · simp [relevant_services, List.mem_filter, isRelevantService, Bool.or_eq_true, or_assoc]
  · simp [isRelevantServicePretty]

/-- C3 witness: `enumerator_filters_by_description_only` at the service
whose UUID matches the target but whose description is plain. -/
theorem enumerator_filters_by_description_only_witness :
    (svcPlainTarget ∈ relevant_services [svcPlainTarget] ↔
      svcPlainTarget ∈ [svcPlainTarget] ∧
        (strContains (pyLower svcPlainTarget.description) "bgx" = true ∨
          strContains (pyLower svcPlainTarget.description) "xpress" = true ∨
          strContains (pyLower svcPlainTarget.description) "gechoos" = true)) ∧
    (∀ u₁ u₂ d cs, isRelevantService ⟨u₁, d, cs⟩ = isRelevantService ⟨u₂, d, cs⟩) ∧
    isRelevantService ⟨"svc-x", "GECHOOS Xpress Service", []⟩ = true ∧
    isRelevantService ⟨"svc-x", "Battery Service", []⟩ = false ∧
    isRelevantServicePretty "svc-target" ⟨"svc-target", "Plain Service", []⟩ = true :=
  enumerator_filters_by_description_only "svc-target" [svcPlainTarget] svcPlainTarget

/-- C4 counterexample: in a run that reaches the connection phase, a timeout
fault during connect (`asyncio.TimeoutError`) escapes `gather_bgx_data`
unhandled — the only handler around the connected phase is
`except BleakError` (main.py line 68) — refuting "every other fault raised
by a host-stack operation (… including timeout faults during connect) is
caught … and no fault propagates out of the pipeline". -/
theorem connect_timeout_escapes_pipeline :
    (gather_bgx_data wConnectTimeout cfgV).2 = Outcome.raised PyExc.timeoutError := by
  decide

/-- C4 (amended): for verbose runs that reach the connection phase, a
`BleakError` raised in the connected phase is caught and reported as one
final human-readable line and the run returns normally, and a successful
connect always ends normally whatever the reads return; but a timeout fault
during connect propagates out of the pipeline unhandled. -/
theorem pipeline_fault_propagation (w : World) (cfg : Config) (d m : String)
    (hv : cfg.verbose = true)
    (h0 : ∀ e, w.scan 0 ≠ ScanOutcome.fault e)
    (h1 : w.scan 1 = ScanOutcome.found d) :
    (w.connect = ConnectOutcome.bleakError m →
      (gather_bgx_data w cfg).2 = Outcome.normal ∧
      (gather_bgx_data w cfg).1.getLast? = some (Event.printLine (connectErrMsg m))) ∧
    (w.connect = ConnectOutcome.timeout →
      (gather_bgx_data w cfg).2 = Outcome.raised PyExc.timeoutError) ∧
    (∀ b svcs, w.connect = ConnectOutcome.ok b svcs →
      (gather_bgx_data w cfg).2 = Outcome.normal) := by
  have hloc : locateGo w cfg 3 0 0 =
      ([.printLine (attemptMsg cfg.deviceAddress 0), .progressStart cfg.scanTimeout,
        .scanInvoke cfg.deviceAddress cfg.scanTimeout, .progressCancel,
        .scanInvoke cfg.deviceAddress cfg.scanTimeout], LocResult.found d) := by
    cases hc : w.scan 0 with
    | fault e => exact absurd hc (h0 e)
    | found d' => simp [locateGo, hv, hc, h1]
    | notFound => simp [locateGo, hv, hc, h1]
  refine ⟨fun hb => ?_, fun ht => ?_, fun b svcs hok => ?_⟩ <;>
    simp [gather_bgx_data, hloc, connectedPhase, hv, *]

/-- C4 witness: `pipeline_fault_propagation` at the world whose connect
raises a `BleakError`: the fault is reported as the final printed line and
the run ends normally. -/
theorem pipeline_fault_propagation_witness :
    (gather_bgx_data wConnectBleakFails cfgV).2 = Outcome.normal ∧
    (gather_bgx_data wConnectBleakFails cfgV).1.getLast? =
      some (Event.printLine (connectErrMsg "boom")) :=
  (pipeline_fault_propagation wConnectBleakFails cfgV "dev" "boom" rfl
    (fun e h => by simp [wConnectBleakFails] at h) rfl).1 rfl

/-- C5: per-characteristic fault isolation — whatever each read invocation
returns, the harvester attempts every readable characteristic exactly once
(one throttle suspension per readable characteristic, a read invocation for
each), so a fault on an earlier characteristic never prevents a later one;
and a read timeout produces exactly the timeout notice for that
characteristic and the loop moves on. -/
theorem harvester_fault_isolation :
    (∀ (w : World) (cfg : Config) (cs : List Characteristic) (k : Nat),
      (harvestChars w cfg cs k).1.countP isSleepEvent =
        (cs.filter (fun c => hasReadCapability c)).length ∧
      ∀ c ∈ cs, hasReadCapability c = true →
        Event.readInvoke c.uuid ∈ (harvestChars w cfg cs k).1) ∧
    (∀ (w : World) (cfg : Config) (k : Nat) (c : Characteristic),
      w.readAt k = ReadResult.timeout →
      harvestChar w cfg k c =
        ([.sleep 1, .readInvoke c.uuid, .printLine (readTimeoutMsg c.uuid)], k + 1)) := by
  refine ⟨fun w cfg cs k => harvest_reads_all_readable w cfg cs k,
    fun w cfg k c ht => ?_⟩
  simp [harvestChar, ht]

/-- C5 witness: `harvester_fault_isolation` on two readable characteristics
where the first read times out: both are attempted, the second is read, and
the first produces exactly the timeout notice. -/
theorem harvester_fault_isolation_witness :
    (harvestChars wFirstReadTimesOut cfgV [charA, charB] 0).1.countP isSleepEvent = 2 ∧
    Event.readInvoke "char-b" ∈ (harvestChars wFirstReadTimesOut cfgV [charA, charB] 0).1 ∧
    harvestChar wFirstReadTimesOut cfgV 0 charA =
      ([.sleep 1, .readInvoke "char-a", .printLine (readTimeoutMsg "char-a")], 1) := by
  refine ⟨?_, ?_, ?_⟩
  · exact (harvester_fault_isolation.1 wFirstReadTimesOut cfgV [charA, charB] 0).1.trans
      (by decide)
  · exact (harvester_fault_isolation.1 wFirstReadTimesOut cfgV [charA, charB] 0).2 charB
      (by decide) (by decide)
  · exact harvester_fault_isolation.2 wFirstReadTimesOut cfgV 0 charA (by decide)

/-- C6: a successfully read characteristic whose UUID equals
`targetCharacteristicId` yields exactly two read invocations (generic read,
then onboard-storage read) and exactly two printed lines (the value line and
the onboard-storage line); any other successfully read characteristic
yields exactly one read invocation and one printed line. -/
theorem harvester_target_double_read :
    (∀ (w : World) (cfg : Config) (k : Nat) (c : Characteristic) (v v₂ : String),
      hasReadCapability c = true →
      c.uuid = cfg.characteristicUuid →
      w.readAt k = ReadResult.ok v → w.readAt (k + 1) = ReadResult.ok v₂ →
      harvestStep w cfg k c =
        ([.sleep 1, .readInvoke c.uuid, .printLine (charValueMsg c.uuid v),
          .readInvoke c.uuid, .printLine (onboardMsg v₂)], k + 2) ∧
      (harvestStep w cfg k c).1.countP isReadEvent = 2 ∧
      (harvestStep w cfg k c).1.countP isPrintEvent = 2) ∧
    (∀ (w : World) (cfg : Config) (k : Nat) (c : Characteristic) (v : String),
      hasReadCapability c = true →
      c.uuid ≠ cfg.characteristicUuid →
      w.readAt k = ReadResult.ok v →
      harvestStep w cfg k c =
        ([.sleep 1, .readInvoke c.uuid, .printLine (charValueMsg c.uuid v)], k + 1) ∧
      (harvestStep w cfg k c).1.countP isReadEvent = 1 ∧
      (harvestStep w cfg k c).1.countP isPrintEvent = 1) := by
  constructor
  · intro w cfg k c v v₂ hr ht h1 h2
    have hb : (c.uuid == cfg.characteristicUuid) = true := by simp [ht]
    have hstep : harvestStep w cfg k c =
        ([.sleep 1, .readInvoke c.uuid, .printLine (charValueMsg c.uuid v),
          .readInvoke c.uuid, .printLine (onboardMsg v₂)], k + 2) := by
      simp [harvestStep, harvestChar, hr, hb, h1, h2]
    refine ⟨hstep, ?_, ?_⟩ <;>
      simp [hstep, isReadEvent, isPrintEvent, List.countP_cons]
  · intro w cfg k c v hr ht h1
    have hb : (c.uuid == cfg.characteristicUuid) = false := by simp [ht]
    have hstep : harvestStep w cfg k c =
        ([.sleep 1, .readInvoke c.uuid, .printLine (charValueMsg c.uuid v)], k + 1) := by
      simp [harvestStep, harvestChar, hr, hb, h1]
    refine ⟨hstep, ?_, ?_⟩ <;>
      simp [hstep, isReadEvent, isPrintEvent, List.countP_cons]

/-- C6 witness: `harvester_target_double_read` at the target characteristic
and at a non-target characteristic, in a world where every read succeeds. -/
theorem harvester_target_double_read_witness :
    (harvestStep wSecondScanFinds cfgV 0 charTarget =
      ([.sleep 1, .readInvoke "char-target", .printLine (charValueMsg "char-target" "v"),
        .readInvoke "char-target", .printLine (onboardMsg "v")], 2) ∧
      (harvestStep wSecondScanFinds cfgV 0 charTarget).1.countP isReadEvent = 2 ∧
      (harvestStep wSecondScanFinds cfgV 0 charTarget).1.countP isPrintEvent = 2) ∧
    (harvestStep wSecondScanFinds cfgV 0 charB =
      ([.sleep 1, .readInvoke "char-b", .printLine (charValueMsg "char-b" "v")], 1) ∧
      (harvestStep wSecondScanFinds cfgV 0 charB).1.countP isReadEvent = 1 ∧
      (harvestStep wSecondScanFinds cfgV 0 charB).1.countP isPrintEvent = 1) :=
  ⟨harvester_target_double_read.1 wSecondScanFinds cfgV 0 charTarget "v" "v"
      (by decide) rfl rfl rfl,
    harvester_target_double_read.2 wSecondScanFinds cfgV 0 charB "v"
      (by decide) (by decide) rfl⟩

/-- C7 counterexample: a characteristic whose only property tag is "READ"
matches the spec's case-insensitive substring capability test, yet the
harvester skips it entirely (main.py line 56 is exact, case-sensitive list
membership) — refuting "attempts a read iff its declared capability tags
match read under a case-insensitive substring test". -/
theorem capability_check_not_case_insensitive :
    specHasReadCapability charUpperRead = true ∧
    hasReadCapability charUpperRead = false ∧
    (harvestChars wSecondScanFinds cfgV [charUpperRead] 0).1 = [] := by decide

/-- C7 (amended): the harvester attempts a read on a characteristic iff the
exact string "read" is an element of its declared property-tag list
(case-sensitive equality, not a case-insensitive substring test); of one
characteristic lacking the tag and one possessing it, only the second is
read. -/
theorem harvester_exact_read_tag (w : World) (cfg : Config) (k : Nat)
    (c : Characteristic) :
    ((harvestStep w cfg k c).1 ≠ [] ↔ hasReadCapability c = true) ∧
    readInvokedUuids (harvestChars wSecondScanFinds cfgV [charNoRead, charRead] 0).1 =
      ["char-r"] := by
  constructor
  · by_cases h : hasReadCapability c = true
    · simp [harvestStep, h, harvestChar_trace_ne_nil]
    · simp [harvestStep, h]
  · decide

/-- C7 witness: `harvester_exact_read_tag` at the characteristic lacking
the read tag. -/
theorem harvester_exact_read_tag_witness :
    ((harvestStep wSecondScanFinds cfgV 0 charNoRead).1 ≠ [] ↔
      hasReadCapability charNoRead = true) ∧
    readInvokedUuids (harvestChars wSecondScanFinds cfgV [charNoRead, charRead] 0).1 =
      ["char-r"] :=
  harvester_exact_read_tag wSecondScanFinds cfgV 0 charNoRead

/-- C8: at every refresh tick with elapsed time `e ≥ 0` and budget `d > 0`,
the rendered bar has exactly 40 segments of which
`floor (40 * min (e / d) 1)` are filled, the written line starts with a
carriage return (rewriting the same output line), and the loop stops on its
own exactly when the fill fraction has reached 1. -/
theorem progress_bar_geometry (elapsed duration : ℚ)
    (he : 0 ≤ elapsed) (hd : 0 < duration) :
    (renderBar elapsed duration).length = 40 ∧
    (renderBar elapsed duration).count Segment.fill =
      (⌊(40 : ℚ) * min (elapsed / duration) 1⌋).toNat ∧
    (∃ rest, progressLine elapsed duration = "\rScanning: [" ++ rest) ∧
    ((animate_tick elapsed duration).2 = false ↔ 1 ≤ progressOf elapsed duration) := by
  have hp0 : 0 ≤ progressOf elapsed duration :=
    le_min (div_nonneg he hd.le) zero_le_one
  have hp1 : progressOf elapsed duration ≤ 1 := min_le_right _ _
  have hcast : ((bar_length : ℕ) : ℚ) = (40 : ℚ) := by norm_num [bar_length]
  have hq0 : 0 ≤ (bar_length : ℚ) * progressOf elapsed duration := by
    rw [hcast]; exact mul_nonneg (by norm_num) hp0
  have hfl : filled_length elapsed duration =
      (⌊(40 : ℚ) * min (elapsed / duration) 1⌋).toNat := by
    rw [filled_length, pyInt_eq_floor _ hq0, hcast, progressOf]
  have hle40 : (⌊(40 : ℚ) * min (elapsed / duration) 1⌋ : ℤ) ≤ 40 := by
    have h40 : (40 : ℚ) * min (elapsed / duration) 1 ≤ 40 :=
      mul_le_of_le_one_right (by norm_num) hp1
    calc ⌊(40 : ℚ) * min (elapsed / duration) 1⌋ ≤ ⌊(40 : ℚ)⌋ := Int.floor_le_floor h40
      _ = 40 := by norm_num
  have hfle : filled_length elapsed duration ≤ 40 := by
    rw [hfl]; exact Int.toNat_le.mpr hle40
  refine ⟨?_, ?_, ?_, ?_⟩
  · simp only [renderBar, List.length_append, List.length_replicate, bar_length]
    omega
  · rw [renderBar, List.count_append]
    have h1 : (List.replicate (filled_length elapsed duration) Segment.fill).count
        Segment.fill = filled_length elapsed duration := List.count_replicate_self _ _
    have h2 : (List.replicate (bar_length - filled_length elapsed duration)
        Segment.dash).count Segment.fill = 0 := by
      rw [List.count_replicate]
      simp
    rw [h1, h2, hfl, Nat.add_zero]
  · have hline : progressLine elapsed duration =
        "\rScanning: [" ++ (String.join ((renderBar elapsed duration).map segString) ++
          ("] " ++ (toString (pyInt (progressOf elapsed duration * 100)) ++ "%"))) := by
      simp [progressLine, String.append_assoc]
    exact ⟨_, hline⟩
  · by_cases h : 1 ≤ progressOf elapsed duration <;> simp [animate_tick, h]

/-- C8 witness: `progress_bar_geometry` at elapsed 1 with budget 2. -/
theorem progress_bar_geometry_witness :
    (renderBar 1 2).length = 40 ∧
    (renderBar 1 2).count Segment.fill = (⌊(40 : ℚ) * min ((1 : ℚ) / 2) 1⌋).toNat ∧
    (∃ rest, progressLine 1 2 = "\rScanning: [" ++ rest) ∧
    ((animate_tick 1 2).2 = false ↔ 1 ≤ progressOf 1 2) :=
  progress_bar_geometry 1 2 (by decide) (by decide)

/-- C10: two runs differing only in the target service identifier are
identical in trace and outcome — `gather_bgx_data` never consults the
`serviceUuid` parameter (main.py line 52 filters by description only). -/
theorem pipeline_independent_of_service_uuid (w : World) (cfg : Config)
    (s₁ s₂ : String) :
    gather_bgx_data w { cfg with serviceUuid := s₁ } =
      gather_bgx_data w { cfg with serviceUuid := s₂ } := by
  have key : ∀ s,
      gather_bgx_data w { cfg with serviceUuid := s } = gather_bgx_data w cfg := by
    intro s
    unfold gather_bgx_data
    rw [locateGo_ignores_serviceUuid, connectedPhase_ignores_serviceUuid]
  rw [key s₁, key s₂]

end BGX
